import Mathlib

/-!
Verification development for the mobile-play-automaton orchestrator.

A shallow embedding of the orchestration logic:
  - the app/game classifier (supabase/functions/device-automation/index.ts,
    isSkippedPackage / filterGamePackages / formatPackageName),
  - the control-plane address resolver (getAdbServerUrl) and the
    agent-address updater (supabase/functions/update-adb-url/index.ts),
  - the action execution gateway (simulateDeviceAction, takeRealScreenshot)
    together with the hardware-control agent's /action route
    (adb-server/server.js),
  - the vision decision step (analyzeScreenWithGemini) and its deterministic
    heuristic fallback (analyzeScreenHeuristic),
  - the session state machine (startBotSession) and the bounded
    perceive-decide-act loop (runBotLoop).

Modelling conventions:
  - JavaScript strings are Lean `String`s; the character-level operations
    the code uses (toLowerCase, includes, startsWith, endsWith, split,
    trim) are defined below over `List Char` so that they evaluate by
    kernel reduction.
  - JavaScript truthiness of an optional string (undefined or '') is
    `truthyStr`; truthiness of an optional number (undefined or 0) is
    `truthyInt`.
  - Network effects (fetch) are modelled by passing the remote side's
    response as an explicit argument, together with a count of requests
    issued; `Math.random()`-driven choices are explicit `Fin`-valued
    arguments; database tables are Lean lists.
  - JSON numeric payloads are modelled as integers, on which the
    `Math.round` the code applies is the identity.
-/

/-- JavaScript `s.toLowerCase()` at the character level. -/
def jsLower (s : String) : List Char :=
  s.toList.map Char.toLower

/-- JavaScript `s.includes(sub)` (substring containment) on char lists. -/
def jsIncludes (s sub : List Char) : Bool :=
  decide (sub <:+: s)

/-- JavaScript `s.startsWith(p)` on char lists. -/
def jsStartsWith (s p : List Char) : Bool :=
  decide (p <+: s)

/-- JavaScript `s.endsWith(p)` on char lists. -/
def jsEndsWith (s p : List Char) : Bool :=
  decide (p <:+ s)

/-- Truthiness of an optional JavaScript string: `undefined` and `''` are falsy. -/
def truthyStr : Option String → Bool
  | some s => s ≠ ""
  | none => false

/-- Truthiness of an optional JavaScript number: `undefined` and `0` are falsy. -/
def truthyInt : Option Int → Bool
  | some n => n ≠ 0
  | none => false

/-- JavaScript `a || b` for an optional string `a` with default `b`. -/
def jsOrStr (a : Option String) (b : String) : String :=
  match a with
  | some s => if s = "" then b else s
  | none => b

/-- JavaScript `s.split(sep)` for a one-character separator. -/
def splitOnChar (sep : Char) : List Char → List (List Char)
  | [] => [[]]
  | c :: rest =>
    let r := splitOnChar sep rest
    if c = sep then [] :: r
    else
      match r with
      | [] => [[c]]
      | w :: ws => (c :: w) :: ws

/-- JavaScript `s.trim()` (whitespace stripped from both ends). -/
def jsTrim (s : List Char) : List Char :=
  ((s.dropWhile Char.isWhitespace).reverse.dropWhile Char.isWhitespace).reverse

/-- One word of `formatPackageName`: first char upper-cased, rest lower-cased
(`word.charAt(0).toUpperCase() + word.slice(1).toLowerCase()`). -/
def capitalizeWord : List Char → List Char
  | [] => []
  | c :: cs => c.toUpper :: cs.map Char.toLower

/-- Join a list of char-list words with single spaces (JavaScript `join(' ')`). -/
def joinWithSpace : List (List Char) → List Char
  | [] => []
  | [w] => w
  | w :: ws => w ++ ' ' :: joinWithSpace ws

/-- `formatPackageName` (device-automation/index.ts): display name from the last
dot-separated segment of a package id, spaces inserted before capitals,
`_`/`-` turned into spaces, trimmed, and each space-separated word title-cased. -/
def formatPackageName (pkg : String) : String :=
  let parts := splitOnChar '.' pkg.toList
  let lastPart := parts.getLast?.getD []
  let expanded := lastPart.flatMap fun c => if c.isUpper then [' ', c] else [c]
  let replaced := expanded.map fun c => if c = '_' ∨ c = '-' then ' ' else c
  let words := splitOnChar ' ' (jsTrim replaced)
  String.mk (joinWithSpace (words.map capitalizeWord))

/-! ## App/Game Classifier (device-automation/index.ts lines 31-153) -/

/-- `KNOWN_GAME_PACKAGES` (device-automation/index.ts lines 31-55). -/
def knownGamePackages : List String :=
  ["com.king.candycrushsaga", "com.king.candycrushsodasaga",
   "com.king.farmheroessaga", "com.supercell.clashofclans",
   "com.supercell.clashroyale", "com.supercell.brawlstars",
   "com.rovio.angrybirds", "com.igg.castleclash", "com.gameloft",
   "com.ea.game", "com.zynga", "com.outfit7", "com.halfbrick",
   "com.mojang.minecraftpe", "com.kiloo.subwaysurf", "com.nekki",
   "com.fingersoft.hillclimb", "com.dts.freefireth", "com.tencent.ig",
   "com.pubg", "com.activision.callofduty", "com.roblox.client"]

/-- `GAME_PATTERNS` (device-automation/index.ts lines 58-82): each
case-insensitive regex rendered as a substring / suffix test on the
lower-cased package id. -/
def gamePatternMatch (pkg : String) : Bool :=
  let l := jsLower pkg
  jsIncludes l ".game.".toList || jsEndsWith l "game".toList ||
  jsIncludes l "games.".toList || jsIncludes l ".play.".toList ||
  jsIncludes l "puzzle".toList || jsIncludes l "arcade".toList ||
  jsIncludes l "adventure".toList || jsIncludes l "racing".toList ||
  jsIncludes l "shooter".toList || jsIncludes l "rpg".toList ||
  jsIncludes l "casino".toList || jsIncludes l "slots".toList ||
  jsIncludes l "candy".toList || jsIncludes l "crush".toList ||
  jsIncludes l "clash".toList || jsIncludes l "craft".toList ||
  jsIncludes l "ninja".toList || jsIncludes l "zombie".toList ||
  jsIncludes l "dragon".toList || jsIncludes l "hero".toList ||
  jsIncludes l "saga".toList || jsIncludes l "run".toList ||
  jsIncludes l "jump".toList

/-- `skipPrefixes` inside `isSkippedPackage` (index.ts lines 86-100). -/
def skipPrefixes : List String :=
  ["com.android.", "com.google.android.", "com.samsung.", "com.sec.",
   "com.microsoft.", "com.facebook.", "com.monotype.", "com.dsi.ant.",
   "com.gd.mobicore.", "com.osp.", "org.simalliance.", "com.cleanmaster.",
   "android."]

/-- `skipExact` inside `isSkippedPackage` (index.ts lines 102-109). -/
def skipExact : List String :=
  ["com.whatsapp", "android", "com.wsomacp", "com.wssnps", "com.policydm",
   "com.wssyncmldm"]

/-- `systemPatterns` inside `isSkippedPackage` (index.ts lines 118-127):
case-insensitive suffix patterns plus the `font.` substring pattern. -/
def systemPatternMatch (pkg : String) : Bool :=
  let l := jsLower pkg
  jsEndsWith l ".service".toList || jsEndsWith l ".provider".toList ||
  jsEndsWith l ".signin".toList || jsEndsWith l ".socket".toList ||
  jsEndsWith l ".server".toList || jsEndsWith l ".sdk".toList ||
  jsEndsWith l ".pa".toList || jsIncludes l "font.".toList

/-- `isSkippedPackage` (device-automation/index.ts lines 84-131). -/
def isSkippedPackage (pkg : String) : Bool :=
  if skipPrefixes.any (fun p => jsStartsWith pkg.toList p.toList) then true
  else if skipExact.contains pkg then true
  else if systemPatternMatch pkg then true
  else false

/-- One entry of the classifier's games list: `{ packageName, name }`. -/
structure GameEntry where
  packageName : String
  name : String
deriving DecidableEq

/-- `filterGamePackages` (device-automation/index.ts lines 133-153): drop
skipped packages, keep the rest when they start with a known game package
or match a game pattern. -/
def filterGamePackages (packages : List String) : List GameEntry :=
  packages.filterMap fun pkg =>
    if isSkippedPackage pkg then none
    else
      let isKnownGame := knownGamePackages.any fun known =>
        jsStartsWith pkg.toList known.toList
      if isKnownGame || gamePatternMatch pkg then
        some { packageName := pkg, name := formatPackageName pkg }
      else none

/-! ## Typed actions and the hardware-control agent's /action route
(adb-server/server.js lines 85-175) -/

/-- Tap coordinates `{ x, y }`. -/
structure Coordinates where
  x : Int
  y : Int
deriving DecidableEq

/-- The closed action set of the `DeviceAction` interface. -/
inductive ActionType
  | tap
  | swipe
  | screenshot
  | install_app
  | open_app
  | close_app
deriving DecidableEq

/-- Symbolic swipe directions. -/
inductive SwipeDirection
  | up
  | down
  | left
  | right
deriving DecidableEq

/-- The `DeviceAction` payload (device-automation interface, lines 14-21 of
both versions); every field but `type` is optional. -/
structure DeviceAction where
  type : ActionType
  coordinates : Option Coordinates := none
  swipeDirection : Option SwipeDirection := none
  packageName : Option String := none
  duration : Option Nat := none
  deviceId : Option String := none
deriving DecidableEq

/-- The JSON body `{ success, result?, error? }` the agent and the gateway
exchange for actions. -/
structure ActionResult where
  success : Bool
  result : Option String := none
  error : Option String := none
deriving DecidableEq

/-- One HTTP response of the agent: status code plus parsed JSON body. -/
structure AgentResponse where
  status : Nat
  body : ActionResult
deriving DecidableEq

/-- `response.ok` of the fetch API: status in 200-299. -/
def httpOk (status : Nat) : Bool :=
  200 ≤ status && status < 300

/-- The `POST /action` route of the agent (adb-server/server.js lines
85-175).  `execOk` is the outcome of the underlying `adb shell`
invocation (`execPromise` resolving or rejecting); the shell command
strings themselves are outside the model.  A tap without numeric
coordinates and an open_app/close_app without a package name are rejected
with HTTP 400 before any command runs; the `install_app` member of the
action type has no switch case and falls to the 400 default branch. -/
def handleAction (execOk : Bool) (a : DeviceAction) : AgentResponse :=
  let execResult : AgentResponse :=
    if execOk then { status := 200, body := { success := true, result := some "executed" } }
    else { status := 500, body := { success := false, error := some "exec failed" } }
  match a.type with
  | .tap =>
    match a.coordinates with
    | none => { status := 400, body := { success := false, error := some "Invalid tap coordinates" } }
    | some _ => execResult
  | .swipe => execResult
  | .open_app =>
    match a.packageName with
    | none => { status := 400, body := { success := false, error := some "Package name required for open_app" } }
    | some _ => execResult
  | .close_app =>
    match a.packageName with
    | none => { status := 400, body := { success := false, error := some "Package name required for close_app" } }
    | some _ => execResult
  | .screenshot => execResult
  | .install_app => { status := 400, body := { success := false, error := some "Unknown action type" } }

/-! ## Action Execution Gateway (device-automation) -/

/-- Behaviour of the network between gateway and agent for one request:
the fetch either throws, or delivers some HTTP response. -/
inductive ActionNet
  | throws
  | respond (r : AgentResponse)
deriving DecidableEq

/-- `simulateDeviceAction` (device-automation/index.ts lines 647-680; the
part_004 variant at lines 575-618 differs only in how `adbServerUrl` is
resolved and in extra request headers).  `adbServerUrl` is the resolved
agent address (none/'' when unconfigured).  Returns the gateway result
plus the number of network requests issued.  Without a configured agent
the code enters simulation mode: no request, `success:true`.  Otherwise
one POST is made; a non-ok status maps to `success:false, 'Action
failed'`, a thrown fetch to `success:false`, and an ok status returns the
agent's body verbatim. -/
def simulateDeviceAction (adbServerUrl : Option String) (net : ActionNet)
    (a : DeviceAction) : ActionResult × Nat :=
  if truthyStr adbServerUrl = false then
    ({ success := true, result := some "Simulated action" }, 0)
  else
    match net with
    | .throws => ({ success := false, result := some "network error" }, 1)
    | .respond r =>
      if httpOk r.status then (r.body, 1)
      else ({ success := false, result := some "Action failed" }, 1)

/-- End-to-end execution of one action: the gateway posting to a reachable
agent that runs adb-server/server.js's /action route. -/
def executeViaAgent (adbServerUrl : Option String) (execOk : Bool)
    (a : DeviceAction) : ActionResult × Nat :=
  simulateDeviceAction adbServerUrl (.respond (handleAction execOk a)) a

/-- Result of one fetch of the screenshot endpoint: a throw, or a response
with `ok` flag and the optional `screenshot` field of its JSON body. -/
inductive ShotFetch
  | throws
  | resp (ok : Bool) (screenshot : Option String)
deriving DecidableEq

/-- `takeRealScreenshot` (part_004 lines 1083-1130): POST /screenshot
first; on any non-ok POST response, retry exactly once via GET with the
device id in the query string; a throw or a failed retry yields ''.
Returns the screenshot string plus the number of requests issued. -/
def takeRealScreenshot (post get : ShotFetch) : String × Nat :=
  match post with
  | .throws => ("", 1)
  | .resp true s => (jsOrStr s "", 1)
  | .resp false _ =>
    match get with
    | .throws => ("", 2)
    | .resp true s => (jsOrStr s "", 2)
    | .resp false _ => ("", 2)

/-! ## Control-Plane Address Resolver (getAdbServerUrl, device-automation/
index.ts lines 177-205) and the agent-address updater
(update-adb-url/index.ts lines 8-78) -/

/-- One row of the `adb_server_config` table. -/
structure ConfigRow where
  id : String
  server_url : String
  last_updated : Nat
  is_active : Bool
deriving DecidableEq

/-- The resolver's database query: active rows ordered by `last_updated`
descending, `limit(1).maybeSingle()`.  Rendered as the active row with the
greatest timestamp (the first such row on ties, which the SQL order leaves
unspecified). -/
def latestActiveRow (rows : List ConfigRow) : Option ConfigRow :=
  (rows.filter fun r => r.is_active).foldl
    (fun acc r =>
      match acc with
      | none => some r
      | some b => if b.last_updated < r.last_updated then some r else some b)
    none

/-- The env-var fallback tail of `getAdbServerUrl`: a truthy
`ADB_SERVER_URL` is returned, otherwise the function throws. -/
def envFallback (envUrl : Option String) : Except String String :=
  if truthyStr envUrl then .ok (envUrl.getD "")
  else .error "ADB server URL not found. Please start your ADB server with ngrok, or manually set ADB_SERVER_URL."

/-- `getAdbServerUrl` (device-automation/index.ts lines 177-205): prefer a
truthy `server_url` from the active config row when the query did not
error; otherwise fall back to the `ADB_SERVER_URL` environment variable;
throw when neither exists. -/
def getAdbServerUrl (dbError : Bool) (rows : List ConfigRow)
    (envUrl : Option String) : Except String String :=
  match dbError, latestActiveRow rows with
  | false, some row =>
    if row.server_url ≠ "" then .ok row.server_url
    else envFallback envUrl
  | _, _ => envFallback envUrl

/-- Per-row effect of the updater's deactivation step
(`update({ is_active: false }).eq('is_active', true)`). -/
def deactivateRow (r : ConfigRow) : ConfigRow :=
  if r.is_active then { r with is_active := false } else r

/-- The update-adb-url edge function (update-adb-url/index.ts lines 8-78):
reject a falsy `serverUrl`; otherwise set `is_active := false` on every
currently active row, then insert one fresh active row.  `newId`/`now` are
the database-generated id and timestamp.  Returns the new table contents
and the success flag of the response envelope. -/
def updateAdbUrl (rows : List ConfigRow) (serverUrl : Option String)
    (newId : String) (now : Nat) : List ConfigRow × Bool :=
  if truthyStr serverUrl = false then (rows, false)
  else
    (rows.map deactivateRow ++
      [{ id := newId, server_url := serverUrl.getD "",
         last_updated := now, is_active := true }], true)

/-! ## Vision decision step (part_004 lines 1133-1301) -/

/-- The `action` object the vision backend may embed in its reply:
`{ type, x, y, tileType }` with possibly missing fields.  Numeric payloads
are modelled as integers (see the header note). -/
structure GeminiActionJson where
  x : Option Int := none
  y : Option Int := none
deriving DecidableEq

/-- The JSON object recovered from the backend's free-form reply. -/
structure GeminiJson where
  action : Option GeminiActionJson := none
  description : Option String := none
deriving DecidableEq

/-- Outcome of the vision-backend exchange in `analyzeScreenWithGemini`:
the fetch throws; the HTTP response is non-ok; the reply contains no
braced JSON block to match; `JSON.parse` throws; or a JSON object is
recovered. -/
inductive VisionOutcome
  | fetchThrew
  | httpNotOk
  | noJsonMatch
  | jsonParseFailed
  | parsed (j : GeminiJson)
deriving DecidableEq

/-- The random draws of one heuristic decision: `Math.floor(Math.random()*16)`
over the tile grid, `Math.floor(Math.random()*120)` and
`Math.floor(Math.random()*200)` for the pool branch. -/
structure HeuristicRand where
  tileIdx : Fin 16
  poolX : Fin 120
  poolY : Fin 200
deriving DecidableEq

/-- An analysis result `{ action, description }`. -/
structure Analysis where
  action : Option DeviceAction
  description : String
deriving DecidableEq

/-- The `tilePositions` table of `analyzeScreenHeuristic` (part_004 lines
1260-1265): a 4x4 grid of tile centers. -/
def tilePositions : List Coordinates :=
  [⟨200, 450⟩, ⟨290, 450⟩, ⟨380, 450⟩, ⟨470, 450⟩,
   ⟨200, 530⟩, ⟨290, 530⟩, ⟨380, 530⟩, ⟨470, 530⟩,
   ⟨200, 610⟩, ⟨290, 610⟩, ⟨380, 610⟩, ⟨470, 610⟩,
   ⟨200, 690⟩, ⟨290, 690⟩, ⟨380, 690⟩, ⟨470, 690⟩]

/-- The heuristic's tile-genre test:
`lowerGame.includes('tile') || includes('match') || includes('puzzle')`. -/
def isTileGameName (gameName : String) : Bool :=
  let lowerGame := jsLower gameName
  jsIncludes lowerGame "tile".toList || jsIncludes lowerGame "match".toList ||
    jsIncludes lowerGame "puzzle".toList

/-- The heuristic's pool-genre test:
`lowerGame.includes('pool') || includes('billiard')`. -/
def isPoolGameName (gameName : String) : Bool :=
  let lowerGame := jsLower gameName
  jsIncludes lowerGame "pool".toList || jsIncludes lowerGame "billiard".toList

/-- `analyzeScreenHeuristic` (part_004 lines 1249-1301): tile/match/puzzle
games tap a random entry of the 4x4 tile grid; pool/billiard games tap a
random point of x in 300..419, y in 640..839; every other game taps the
screen center (360, 640). -/
def analyzeScreenHeuristic (gameName : String) (r : HeuristicRand) : Analysis :=
  if isTileGameName gameName then
    let pos := tilePositions.get ⟨r.tileIdx.val, r.tileIdx.isLt⟩
    { action := some { type := .tap, coordinates := some pos },
      description := "Tapping tile at (" ++ toString pos.x ++ ", " ++ toString pos.y ++ ")" }
  else if isPoolGameName gameName then
    let x : Int := 300 + r.poolX.val
    let y : Int := 640 + r.poolY.val
    { action := some { type := .tap, coordinates := some ⟨x, y⟩ },
      description := "Pool shot at (" ++ toString x ++ ", " ++ toString y ++ ")" }
  else
    { action := some { type := .tap, coordinates := some ⟨360, 640⟩ },
      description := "Tapping center of screen" }

/-- `analyzeScreenWithGemini` (part_004 lines 1133-1246): with a falsy
`LOVABLE_API_KEY`, a thrown or non-ok backend call, an unmatched or
unparseable reply, a missing `action` member, or a falsy `action.x` or
`action.y`, the heuristic decision is returned; otherwise the backend's
coordinates are rounded (`Math.round`, the identity on the integer model)
and passed through as a tap, with the reply's `description` or a
constructed default.  The safe tile rectangle (x 150-570, y 400-800)
appears only in the instruction text sent to the backend; nothing is
clamped here. -/
def analyzeScreenWithGemini (apiKey : Option String) (outcome : VisionOutcome)
    (gameName : String) (r : HeuristicRand) : Analysis :=
  if truthyStr apiKey = false then analyzeScreenHeuristic gameName r
  else
    match outcome with
    | .parsed j =>
      match j.action with
      | some ja =>
        if truthyInt ja.x && truthyInt ja.y then
          { action := some { type := .tap, coordinates := some ⟨ja.x.getD 0, ja.y.getD 0⟩ },
            description := jsOrStr j.description "AI detected tile" }
        else analyzeScreenHeuristic gameName r
      | none => analyzeScreenHeuristic gameName r
    | _ => analyzeScreenHeuristic gameName r

/-- The failure condition of the vision decision step: every situation in
which `analyzeScreenWithGemini` does not adopt a backend coordinate. -/
def visionFellBack (apiKey : Option String) (outcome : VisionOutcome) : Bool :=
  if truthyStr apiKey = false then true
  else
    match outcome with
    | .parsed j =>
      match j.action with
      | some ja => !(truthyInt ja.x && truthyInt ja.y)
      | none => true
    | _ => true

/-! ## Device registry rows, session rows, and startBotSession
(part_004 lines 347-413) -/

/-- One row of the `devices` table (the fields startBotSession and
runBotLoop consult). -/
structure Device where
  id : String
  device_id : String
  name : String
  status : String
deriving DecidableEq

/-- One row of the `bot_sessions` table. -/
structure SessionRow where
  id : String
  device_id : String
  game_name : String
  package_name : String
  status : String
  actions_performed : Nat
deriving DecidableEq

/-- The record store: the `devices` and `bot_sessions` tables. -/
structure Store where
  devices : List Device
  sessions : List SessionRow
deriving DecidableEq

/-- The device lookup of startBotSession: first by database UUID `id`
(`maybeSingle`), then by hardware `device_id`. -/
def findDevice (devices : List Device) (key : String) : Option Device :=
  match devices.find? fun d => d.id = key with
  | some d => some d
  | none => devices.find? fun d => d.device_id = key

/-- The caller's payload for `start_bot_session`. -/
structure StartRequest where
  deviceId : String
  gameName : String
  packageName : String
deriving DecidableEq

/-- Outcome of `launchGameOnDevice` (health check plus `open_app` post),
abstracted as the flag/message pair the code derives from the network. -/
structure LaunchOutcome where
  success : Bool
  message : String
deriving DecidableEq

/-- The success envelope of startBotSession. -/
structure StartResponse where
  session : SessionRow
  launched : Bool
  launchMessage : String
  hardwareDeviceId : String
deriving DecidableEq

/-- `startBotSession` (part_004 lines 347-413): look the device up by
either identifier; throw `Device not found` when absent and
`Device ... is ...` when its status is not `online`; otherwise insert
exactly one `bot_sessions` row with status `running` keyed by the device's
database UUID (`newSessionId` is the database-generated id), then launch
the game (the launch result is reported but never rolls the insert back).
The store is returned alongside so that the error paths visibly leave it
unchanged. -/
def startBotSession (store : Store) (req : StartRequest)
    (newSessionId : String) (launch : LaunchOutcome) :
    Store × Except String StartResponse :=
  match findDevice store.devices req.deviceId with
  | none => (store, .error ("Device not found: " ++ req.deviceId))
  | some device =>
    if device.status ≠ "online" then
      (store, .error ("Device " ++ device.name ++ " is " ++ device.status))
    else
      let row : SessionRow :=
        { id := newSessionId, device_id := device.id,
          game_name := req.gameName, package_name := req.packageName,
          status := "running", actions_performed := 0 }
      ({ store with sessions := store.sessions ++ [row] },
       .ok { session := row, launched := launch.success,
             launchMessage := launch.message,
             hardwareDeviceId := device.device_id })

/-! ## The autonomous play loop (runBotLoop, part_004 lines 955-1080) -/

/-- The external world of one loop iteration: the screenshot the gateway
returns ('' on capture failure, as takeRealScreenshot maps every failure
to ''), the vision-backend exchange, the random draws of the heuristic,
and the outcome of executeRealAction for the chosen action. -/
structure CycleEnv where
  screenshot : String
  visionOutcome : VisionOutcome
  rand : HeuristicRand
  execSuccess : Bool
  execTimeMs : Nat
deriving DecidableEq

/-- One entry of the loop's per-cycle result trace. -/
structure CycleResult where
  iteration : Nat
  action : DeviceAction
  success : Bool
  description : String
deriving DecidableEq

/-- The decision of one cycle (part_004 lines 1005-1014): tile games (by
game name or package name) consult the vision backend, everything else
uses the heuristic directly. -/
def decideCycleAction (s : SessionRow) (apiKey : Option String)
    (e : CycleEnv) : Analysis :=
  if jsIncludes (jsLower s.game_name) "tile".toList ||
      jsIncludes (jsLower s.package_name) "tilepark".toList then
    analyzeScreenWithGemini apiKey e.visionOutcome s.game_name e.rand
  else analyzeScreenHeuristic s.game_name e.rand

/-- The iteration body of runBotLoop (part_004 lines 994-1050), one
recursive step per iteration: a failed screenshot (empty string) skips the
iteration (`continue`); otherwise the decided action, tagged with the
device id, is executed and traced and the session counter is incremented.
`i` is the zero-based iteration index, `counter` the running
`actionsPerformed`. -/
def runCyclesFrom (s : SessionRow) (apiKey : Option String) (devId : String)
    (i : Nat) (counter : Nat) : List CycleEnv → List CycleResult × Nat
  | [] => ([], counter)
  | e :: rest =>
    if e.screenshot = "" then runCyclesFrom s apiKey devId (i + 1) counter rest
    else
      let analysis := decideCycleAction s apiKey e
      match analysis.action with
      | none => runCyclesFrom s apiKey devId (i + 1) counter rest
      | some act =>
        let out := runCyclesFrom s apiKey devId (i + 1) (counter + 1) rest
        ({ iteration := i + 1, action := { act with deviceId := some devId },
           success := e.execSuccess, description := analysis.description } :: out.1,
         out.2)

/-- The response body of a completed runBotLoop call. -/
structure BotLoopResult where
  results : List CycleResult
  actionsPerformed : Nat
  totalActions : Nat
deriving DecidableEq

/-- `runBotLoop` (part_004 lines 955-1080): reject when the session is not
`running` or its device is not `online`; otherwise resolve the adb device
id (`hardwareDeviceId || device.device_id`) and run one iteration per
entry of `envs` (the loop bound `iterations` is `envs.length`), returning
the trace and the updated `actions_performed` written back to the session
row. -/
def runBotLoop (s : SessionRow) (device : Device)
    (hardwareDeviceId : Option String) (apiKey : Option String)
    (envs : List CycleEnv) : Except String BotLoopResult :=
  if s.status ≠ "running" then .error ("Session is " ++ s.status ++ ", not running")
  else if device.status ≠ "online" then .error "Device is offline"
  else
    let devId := jsOrStr hardwareDeviceId device.device_id
    let out := runCyclesFrom s apiKey devId 0 s.actions_performed envs
    .ok { results := out.1, actionsPerformed := out.1.length, totalActions := out.2 }

/-! ## Helper lemmas -/

/-- Every branch of the heuristic returns a non-null action. -/
theorem analyzeScreenHeuristic_action_isSome (g : String) (r : HeuristicRand) :
    (analyzeScreenHeuristic g r).action.isSome = true := by
  unfold analyzeScreenHeuristic
  split_ifs <;> rfl

/-- Every branch of the vision decision step returns a non-null action. -/
theorem analyzeScreenWithGemini_action_isSome (key : Option String)
    (o : VisionOutcome) (g : String) (r : HeuristicRand) :
    (analyzeScreenWithGemini key o g r).action.isSome = true := by
  unfold analyzeScreenWithGemini
  split_ifs with h1
  · exact analyzeScreenHeuristic_action_isSome g r
  · cases o with
    | parsed j =>
      cases hj : j.action with
      | some ja =>
        simp only [hj]
        split_ifs
        · rfl
        · exact analyzeScreenHeuristic_action_isSome g r
      | none => simp only [hj]; exact analyzeScreenHeuristic_action_isSome g r
    | fetchThrew => exact analyzeScreenHeuristic_action_isSome g r
    | httpNotOk => exact analyzeScreenHeuristic_action_isSome g r
    | noJsonMatch => exact analyzeScreenHeuristic_action_isSome g r
    | jsonParseFailed => exact analyzeScreenHeuristic_action_isSome g r

/-- The final counter of the loop is the initial counter plus the number of
traced cycles. -/
theorem runCyclesFrom_total (s : SessionRow) (k : Option String) (devId : String) :
    ∀ (envs : List CycleEnv) (i c : Nat),
      (runCyclesFrom s k devId i c envs).2 = c + (runCyclesFrom s k devId i c envs).1.length := by
  intro envs
  induction envs with
  | nil => intro i c; simp [runCyclesFrom]
  | cons e rest ih =>
    intro i c
    unfold runCyclesFrom
    split_ifs with h1
    · simpa using ih (i + 1) c
    · cases hA : (decideCycleAction s k e).action with
      | none => simpa [hA] using ih (i + 1) c
      | some act =>
        simp only [hA, List.length_cons]
        have := ih (i + 1) (c + 1)
        omega

/-- The loop traces at most one cycle per iteration. -/
theorem runCyclesFrom_length_le (s : SessionRow) (k : Option String) (devId : String) :
    ∀ (envs : List CycleEnv) (i c : Nat),
      (runCyclesFrom s k devId i c envs).1.length ≤ envs.length := by
  intro envs
  induction envs with
  | nil => intro i c; simp [runCyclesFrom]
  | cons e rest ih =>
    intro i c
    unfold runCyclesFrom
    split_ifs with h1
    · exact le_trans (ih (i + 1) c) (Nat.le_succ _)
    · cases hA : (decideCycleAction s k e).action with
      | none => exact le_trans (by simpa [hA] using ih (i + 1) c) (Nat.le_succ _)
      | some act =>
        simp only [hA, List.length_cons]
        exact Nat.succ_le_succ (ih (i + 1) (c + 1))

/-- A deactivated row is inactive. -/
theorem deactivateRow_inactive (r : ConfigRow) :
    (deactivateRow r).is_active = false := by
  unfold deactivateRow
  split_ifs with h
  · rfl
  · simpa using h

/-- Deactivation keeps each row's identity and URL. -/
theorem deactivateRow_id_url (r : ConfigRow) :
    ((deactivateRow r).id, (deactivateRow r).server_url) = (r.id, r.server_url) := by
  unfold deactivateRow
  split_ifs <;> rfl

/-! ## Claim C1 -/

/-- Claim C1, counterexample.  The claim says a tap without coordinates is
rejected before any network request (zero network calls).  In the code the
gateway `simulateDeviceAction` performs no pre-network validation: with an
agent configured it posts the malformed tap, the agent's /action route
answers HTTP 400, and only then does the gateway report `success:false` —
one network call, not zero. -/
theorem tapNoCoordinates_zeroCalls_counterexample :
    (executeViaAgent (some "https://agent.example") true { type := .tap }).1.success = false ∧
    (executeViaAgent (some "https://agent.example") true { type := .tap }).2 = 1 ∧
    ¬ (executeViaAgent (some "https://agent.example") true { type := .tap }).2 = 0 := by
  decide

/-- Claim C1 (amended): a tap action without coordinates is rejected by
the agent's /action route with HTTP 400 and the gateway reports
`success:false`, after exactly one network request (the gateway itself
performs no pre-network validation); with no agent configured, the
gateway's simulation mode reports `success:true` with zero requests. -/
theorem tapNoCoordinates_rejectedByAgent (url : String) (execOk : Bool)
    (a : DeviceAction) (hu : url ≠ "") (ht : a.type = .tap)
    (hc : a.coordinates = none) :
    (executeViaAgent (some url) execOk a).1 =
      { success := false, result := some "Action failed" } ∧
    (executeViaAgent (some url) execOk a).2 = 1 ∧
    (executeViaAgent none execOk a).1.success = true ∧
    (executeViaAgent none execOk a).2 = 0 := by
  unfold executeViaAgent simulateDeviceAction handleAction
  simp [truthyStr, hu, ht, hc, httpOk]

/-- Witness for `tapNoCoordinates_rejectedByAgent` at a concrete input. -/
theorem tapNoCoordinates_rejectedByAgent_witness :
    (executeViaAgent (some "https://agent.example") true { type := .tap }).1 =
      { success := false, result := some "Action failed" } ∧
    (executeViaAgent (some "https://agent.example") true { type := .tap }).2 = 1 ∧
    (executeViaAgent none true { type := .tap }).1.success = true ∧
    (executeViaAgent none true { type := .tap }).2 = 0 :=
  tapNoCoordinates_rejectedByAgent "https://agent.example" true { type := .tap }
    (by decide) rfl rfl

/-! ## Claim C2 -/

/-- Claim C2, counterexample.  The claim says backend-returned coordinates
are clamped into the safe rectangle (x 150-570, y 400-800) before the tap
is executed.  The code rounds and passes them through unclamped: in a
tile-game loop cycle whose vision backend answers with x = 1000,
y = 2000, the executed action of the cycle trace carries exactly
(1000, 2000), which lies outside the rectangle. -/
theorem visionCoordinates_notClamped_counterexample :
    (runBotLoop
        { id := "s1", device_id := "d1", game_name := "Tile Park",
          package_name := "com.funvent.tilepark", status := "running",
          actions_performed := 2 }
        { id := "d1", device_id := "abc123", name := "Pixel", status := "online" }
        (some "abc123") (some "key")
        [{ screenshot := "img",
           visionOutcome := .parsed { action := some { x := some 1000, y := some 2000 } },
           rand := ⟨0, 0, 0⟩, execSuccess := true, execTimeMs := 50 }]).map
      (fun r => r.results.map fun c => c.action.coordinates) =
      .ok [some ⟨1000, 2000⟩] ∧
    ¬ ((150 : Int) ≤ 1000 ∧ (1000 : Int) ≤ 570 ∧ (400 : Int) ≤ 2000 ∧ (2000 : Int) ≤ 800) := by
  constructor
  · rfl
  · decide

/-- Claim C2 (amended): when the vision backend's reply parses to an
action with truthy numeric coordinates, those coordinates are rounded
(`Math.round`) and passed through unchanged — no clamping into the safe
rectangle happens, the rectangle being stated only in the instruction text
sent to the backend, so out-of-rectangle coordinates reach the executed
tap verbatim. -/
theorem visionCoordinates_passthrough (key : String) (hk : key ≠ "")
    (g : String) (r : HeuristicRand) (j : GeminiJson) (ja : GeminiActionJson)
    (hja : j.action = some ja) (x y : Int) (hx : ja.x = some x)
    (hy : ja.y = some y) (hx0 : x ≠ 0) (hy0 : y ≠ 0) :
    (analyzeScreenWithGemini (some key) (.parsed j) g r).action =
      some { type := .tap, coordinates := some ⟨x, y⟩ } := by
  unfold analyzeScreenWithGemini
  simp [truthyStr, hk, hja, hx, hy, truthyInt, hx0, hy0]

/-- Witness for `visionCoordinates_passthrough` at a concrete input. -/
theorem visionCoordinates_passthrough_witness :
    (analyzeScreenWithGemini (some "key")
        (.parsed { action := some { x := some 1000, y := some 2000 } })
        "Tile Park" ⟨0, 0, 0⟩).action =
      some { type := .tap, coordinates := some ⟨1000, 2000⟩ } :=
  visionCoordinates_passthrough "key" (by decide) "Tile Park" ⟨0, 0, 0⟩
    { action := some { x := some 1000, y := some 2000 } }
    { x := some 1000, y := some 2000 } rfl 1000 2000 rfl rfl
    (by decide) (by decide)


/-! ## Claim C3 -/

/-- Claim C3: a completed `run_bot_loop` call over an iteration-indexed
environment list traces at most one cycle per iteration, raises the
session's `actions_performed` by at most the iteration count, and an
iteration whose screenshot capture fails (empty screenshot) is skipped
outright — the recursion continues on the remaining iterations with the
counter untouched. -/
theorem runBotLoop_bounded (s : SessionRow) (d : Device)
    (hw api : Option String) (envs : List CycleEnv) (r : BotLoopResult)
    (h : runBotLoop s d hw api envs = .ok r) :
    r.actionsPerformed ≤ envs.length ∧
    r.totalActions ≤ s.actions_performed + envs.length ∧
    (∀ (devId : String) (i c : Nat) (e : CycleEnv) (rest : List CycleEnv),
      e.screenshot = "" →
        runCyclesFrom s api devId i c (e :: rest) =
          runCyclesFrom s api devId (i + 1) c rest) := by
  unfold runBotLoop at h
  split_ifs at h with h1 h2
  refine ⟨?_, ?_, ?_⟩
  · have hlen := runCyclesFrom_length_le s api (jsOrStr hw d.device_id) envs 0 s.actions_performed
    cases h
    simpa using hlen
  · have htot := runCyclesFrom_total s api (jsOrStr hw d.device_id) envs 0 s.actions_performed
    have hlen := runCyclesFrom_length_le s api (jsOrStr hw d.device_id) envs 0 s.actions_performed
    cases h
    simp only []
    omega
  · intro devId i c e rest he
    conv_lhs => rw [runCyclesFrom]
    simp [he]

/-- Witness for `runBotLoop_bounded` at a concrete run: two iterations,
the second with a failed screenshot, on a heuristic (non-tile) game. -/
theorem runBotLoop_bounded_witness :
    (1 : Nat) ≤ 2 ∧
    (3 : Nat) ≤ 2 + 2 ∧
    (∀ (devId : String) (i c : Nat) (e : CycleEnv) (rest : List CycleEnv),
      e.screenshot = "" →
        runCyclesFrom ⟨"s1", "d1", "Candy Crush", "com.king.candycrushsaga", "running", 2⟩
            (some "key") devId i c (e :: rest) =
          runCyclesFrom ⟨"s1", "d1", "Candy Crush", "com.king.candycrushsaga", "running", 2⟩
            (some "key") devId (i + 1) c rest) := by
  have h := runBotLoop_bounded
    ⟨"s1", "d1", "Candy Crush", "com.king.candycrushsaga", "running", 2⟩
    ⟨"d1", "abc123", "Pixel", "online"⟩
    (some "abc123") (some "key")
    [⟨"img", .fetchThrew, ⟨0, 0, 0⟩, true, 50⟩, ⟨"", .fetchThrew, ⟨0, 0, 0⟩, true, 50⟩]
    ⟨[⟨1, ⟨.tap, some ⟨360, 640⟩, none, none, none, some "abc123"⟩, true,
       "Tapping center of screen"⟩], 1, 3⟩
    rfl
  simpa using h

/-! ## Claim C4 -/

/-- Claim C4: when the device startBotSession looks up is not `online`,
the call fails (with the thrown `Device ... is ...` state error) and the
store — in particular the session table — is unchanged; when the device is
`online`, exactly one new session row is appended, and it has status
`running`. -/
theorem startBotSession_deviceState (store : Store) (req : StartRequest)
    (sid : String) (launch : LaunchOutcome) (d : Device)
    (hfind : findDevice store.devices req.deviceId = some d) :
    (d.status ≠ "online" →
      (startBotSession store req sid launch).1 = store ∧
      (startBotSession store req sid launch).2 =
        .error ("Device " ++ d.name ++ " is " ++ d.status)) ∧
    (d.status = "online" →
      (startBotSession store req sid launch).1.sessions =
        store.sessions ++
          [⟨sid, d.id, req.gameName, req.packageName, "running", 0⟩] ∧
      (startBotSession store req sid launch).1.devices = store.devices ∧
      (startBotSession store req sid launch).2 =
        .ok ⟨⟨sid, d.id, req.gameName, req.packageName, "running", 0⟩,
             launch.success, launch.message, d.device_id⟩) := by
  constructor
  · intro hoff
    unfold startBotSession
    simp [hfind, hoff]
  · intro hon
    unfold startBotSession
    simp [hfind, hon]

/-- Witness for `startBotSession_deviceState`: one store holding an
offline device and an online device, probed through both branches. -/
theorem startBotSession_deviceState_witness :
    (("offline" : String) ≠ "online" →
      (startBotSession
          ⟨[⟨"d9", "hw9", "Tab", "offline"⟩], []⟩
          ⟨"d9", "Tile Park", "com.funvent.tilepark"⟩ "s9" ⟨true, "ok"⟩).1 =
        ⟨[⟨"d9", "hw9", "Tab", "offline"⟩], []⟩ ∧
      (startBotSession
          ⟨[⟨"d9", "hw9", "Tab", "offline"⟩], []⟩
          ⟨"d9", "Tile Park", "com.funvent.tilepark"⟩ "s9" ⟨true, "ok"⟩).2 =
        .error ("Device " ++ "Tab" ++ " is " ++ "offline")) ∧
    (("offline" : String) = "online" →
      (startBotSession
          ⟨[⟨"d9", "hw9", "Tab", "offline"⟩], []⟩
          ⟨"d9", "Tile Park", "com.funvent.tilepark"⟩ "s9" ⟨true, "ok"⟩).1.sessions =
        [] ++ [⟨"s9", "d9", "Tile Park", "com.funvent.tilepark", "running", 0⟩] ∧
      (startBotSession
          ⟨[⟨"d9", "hw9", "Tab", "offline"⟩], []⟩
          ⟨"d9", "Tile Park", "com.funvent.tilepark"⟩ "s9" ⟨true, "ok"⟩).1.devices =
        [⟨"d9", "hw9", "Tab", "offline"⟩] ∧
      (startBotSession
          ⟨[⟨"d9", "hw9", "Tab", "offline"⟩], []⟩
          ⟨"d9", "Tile Park", "com.funvent.tilepark"⟩ "s9" ⟨true, "ok"⟩).2 =
        .ok ⟨⟨"s9", "d9", "Tile Park", "com.funvent.tilepark", "running", 0⟩,
             true, "ok", "hw9"⟩) :=
  startBotSession_deviceState
    ⟨[⟨"d9", "hw9", "Tab", "offline"⟩], []⟩
    ⟨"d9", "Tile Park", "com.funvent.tilepark"⟩ "s9" ⟨true, "ok"⟩
    ⟨"d9", "hw9", "Tab", "offline"⟩ rfl

/-! ## Claim C5 -/

/-- Claim C5: whenever the vision decision step fails — missing
credential, thrown or non-ok backend call, unmatched or unparseable
reply, or a reply without truthy coordinates — `analyzeScreenWithGemini`
returns exactly the heuristic decision (no error escapes), and that
decision carries a non-null action, so the cycle still completes. -/
theorem visionFailure_fallsBackToHeuristic (key : Option String)
    (o : VisionOutcome) (g : String) (r : HeuristicRand)
    (h : visionFellBack key o = true) :
    analyzeScreenWithGemini key o g r = analyzeScreenHeuristic g r ∧
    (analyzeScreenHeuristic g r).action.isSome = true := by
  refine ⟨?_, analyzeScreenHeuristic_action_isSome g r⟩
  unfold visionFellBack at h
  unfold analyzeScreenWithGemini
  split_ifs at h ⊢ with h1
  · rfl
  · cases o with
    | parsed j =>
      cases hj : j.action with
      | some ja =>
        simp only [hj] at h ⊢
        split_ifs with h2
        · simp [h2] at h
        · rfl
      | none => simp [hj]
    | fetchThrew => rfl
    | httpNotOk => rfl
    | noJsonMatch => rfl
    | jsonParseFailed => rfl

/-- Witness for `visionFailure_fallsBackToHeuristic`: the backend call
threw with no credential configured. -/
theorem visionFailure_fallsBackToHeuristic_witness :
    analyzeScreenWithGemini none .fetchThrew "Tile Park" ⟨0, 0, 0⟩ =
      analyzeScreenHeuristic "Tile Park" ⟨0, 0, 0⟩ ∧
    (analyzeScreenHeuristic "Tile Park" ⟨0, 0, 0⟩).action.isSome = true :=
  visionFailure_fallsBackToHeuristic none .fetchThrew "Tile Park" ⟨0, 0, 0⟩ rfl

/-! ## Claim C6 -/

/-- Claim C6: a package that matches the static exclusion table (skip
prefix, exact skip entry, or system-suffix pattern) never appears in the
classifier's games list, whatever else it matches. -/
theorem skippedPackage_neverClassifiedGame (packages : List String)
    (pkg : String) (hmem : pkg ∈ packages)
    (hskip : isSkippedPackage pkg = true) :
    pkg ∉ (filterGamePackages packages).map GameEntry.packageName := by
  intro hcon
  unfold filterGamePackages at hcon
  simp only [List.map_filterMap, List.mem_filterMap] at hcon
  obtain ⟨q, hq, hfq⟩ := hcon
  by_cases hq1 : isSkippedPackage q
  · simp [hq1] at hfq
  · rw [if_neg hq1] at hfq
    split_ifs at hfq with hq2
    · have h3 : q = pkg := by simpa using hfq
      subst h3
      exact hq1 hskip
    · simp at hfq

/-- Witness for `skippedPackage_neverClassifiedGame`:
`com.android.gamehero` matches the skip prefix `com.android.` and at the
same time the game patterns `game$` and `hero`, and is still excluded. -/
theorem skippedPackage_neverClassifiedGame_witness :
    gamePatternMatch "com.android.gamehero" = true ∧
    "com.android.gamehero" ∉
      (filterGamePackages ["com.android.gamehero", "com.king.candycrushsaga"]).map
        GameEntry.packageName :=
  ⟨by decide,
   skippedPackage_neverClassifiedGame
     ["com.android.gamehero", "com.king.candycrushsaga"]
     "com.android.gamehero" (by decide) (by decide)⟩

/-! ## Claim C7 -/

/-- Claim C7: the resolver prefers the active config-store row (when its
stored URL is truthy) over any static fallback, and when neither an
active row nor the fallback exists it fails with the configuration error
instead of producing a default address. -/
theorem resolver_prefersConfigStore :
    (∀ (rows : List ConfigRow) (env : Option String) (row : ConfigRow),
      latestActiveRow rows = some row → row.server_url ≠ "" →
      getAdbServerUrl false rows env = .ok row.server_url) ∧
    (∀ (b : Bool) (rows : List ConfigRow) (env : Option String),
      rows.filter (fun r => r.is_active) = [] → truthyStr env = false →
      getAdbServerUrl b rows env =
        .error "ADB server URL not found. Please start your ADB server with ngrok, or manually set ADB_SERVER_URL.") := by
  constructor
  · intro rows env row h1 h2
    unfold getAdbServerUrl
    simp [h1, h2]
  · intro b rows env hfil henv
    have hnone : latestActiveRow rows = none := by
      unfold latestActiveRow
      rw [hfil]
      rfl
    unfold getAdbServerUrl
    cases b <;> simp [hnone, envFallback, henv]

/-- Witness for `resolver_prefersConfigStore`: a store row beats a set
env fallback, and an empty store with no env yields the error. -/
theorem resolver_prefersConfigStore_witness :
    getAdbServerUrl false [⟨"r1", "https://a.ngrok.app", 5, true⟩]
      (some "http://env.fallback") = .ok "https://a.ngrok.app" ∧
    getAdbServerUrl false [] none =
      .error "ADB server URL not found. Please start your ADB server with ngrok, or manually set ADB_SERVER_URL." :=
  ⟨resolver_prefersConfigStore.1 [⟨"r1", "https://a.ngrok.app", 5, true⟩]
     (some "http://env.fallback") ⟨"r1", "https://a.ngrok.app", 5, true⟩
     rfl (by decide),
   resolver_prefersConfigStore.2 false [] none rfl rfl⟩

/-! ## Claim C8 -/

/-- Claim C8, counterexample.  The claim says every gateway call retries
once with an alternate verb when the agent answers with an unsupported
verb/route response.  The action-execution gateway does not: on a 404
(`Cannot POST /action`) answer, `simulateDeviceAction` reports failure
after exactly one request — not the two requests a retry would produce. -/
theorem actionGateway_noRetry_counterexample :
    (simulateDeviceAction (some "https://agent.example")
        (.respond ⟨404, ⟨false, none, some "Cannot POST /action"⟩⟩)
        ⟨.tap, some ⟨100, 200⟩, none, none, none, none⟩).1.success = false ∧
    (simulateDeviceAction (some "https://agent.example")
        (.respond ⟨404, ⟨false, none, some "Cannot POST /action"⟩⟩)
        ⟨.tap, some ⟨100, 200⟩, none, none, none, none⟩).2 = 1 ∧
    ¬ (simulateDeviceAction (some "https://agent.example")
        (.respond ⟨404, ⟨false, none, some "Cannot POST /action"⟩⟩)
        ⟨.tap, some ⟨100, 200⟩, none, none, none, none⟩).2 = 2 := by
  decide

/-- Claim C8 (amended): only the screenshot capture retries — on any
non-ok POST response `takeRealScreenshot` issues exactly one GET retry
before giving up — while the action-execution gateway reports failure
after its single POST with no retry. -/
theorem gatewayRetry_screenshotOnly :
    (∀ (s : Option String) (get : ShotFetch),
      (takeRealScreenshot (.resp false s) get).2 = 2) ∧
    (∀ (url : String) (resp : AgentResponse) (a : DeviceAction),
      url ≠ "" → httpOk resp.status = false →
      (simulateDeviceAction (some url) (.respond resp) a).1.success = false ∧
      (simulateDeviceAction (some url) (.respond resp) a).2 = 1) := by
  constructor
  · intro s get
    cases get with
    | throws => rfl
    | resp ok s2 => cases ok <;> rfl
  · intro url resp a hu hnok
    unfold simulateDeviceAction
    simp [truthyStr, hu, hnok]

/-- Witness for `gatewayRetry_screenshotOnly` at concrete inputs. -/
theorem gatewayRetry_screenshotOnly_witness :
    (takeRealScreenshot (.resp false (some "err")) (.resp true (some "img"))).2 = 2 ∧
    (simulateDeviceAction (some "https://agent.example")
        (.respond ⟨404, ⟨false, none, some "Cannot POST /action"⟩⟩)
        ⟨.open_app, none, none, some "com.funvent.tilepark", none, none⟩).1.success = false ∧
    (simulateDeviceAction (some "https://agent.example")
        (.respond ⟨404, ⟨false, none, some "Cannot POST /action"⟩⟩)
        ⟨.open_app, none, none, some "com.funvent.tilepark", none, none⟩).2 = 1 :=
  ⟨gatewayRetry_screenshotOnly.1 (some "err") (.resp true (some "img")),
   (gatewayRetry_screenshotOnly.2 "https://agent.example"
      ⟨404, ⟨false, none, some "Cannot POST /action"⟩⟩
      ⟨.open_app, none, none, some "com.funvent.tilepark", none, none⟩
      (by decide) (by decide)).1,
   (gatewayRetry_screenshotOnly.2 "https://agent.example"
      ⟨404, ⟨false, none, some "Cannot POST /action"⟩⟩
      ⟨.open_app, none, none, some "com.funvent.tilepark", none, none⟩
      (by decide) (by decide)).2⟩

/-! ## Claim C9 -/

/-- After the updater's deactivation pass, no mapped row is active. -/
theorem filter_deactivated_nil (rows : List ConfigRow) :
    ((rows.map deactivateRow).filter fun r => r.is_active) = [] := by
  induction rows with
  | nil => rfl
  | cons r rest ih => simp [deactivateRow_inactive, ih]

/-- The deactivation pass keeps every row's identity and URL in place. -/
theorem map_idUrl_deactivated (rows : List ConfigRow) :
    (rows.map deactivateRow).map (fun r => (r.id, r.server_url)) =
      rows.map fun r => (r.id, r.server_url) := by
  induction rows with
  | nil => rfl
  | cons r rest ih =>
    simp only [List.map_cons, List.cons.injEq]
    exact ⟨deactivateRow_id_url r, ih⟩

/-- Claim C9: a completed agent-address update deactivates every active
row and then inserts one fresh active row, so exactly one row — the new
one — is active afterwards; no existing row's URL is mutated in place
(ids and URLs of all prior rows are preserved, the new pair appended). -/
theorem updateAdbUrl_exactlyOneActive (rows : List ConfigRow) (u : String)
    (newId : String) (now : Nat) (hu : u ≠ "") :
    ((updateAdbUrl rows (some u) newId now).1.filter fun r => r.is_active) =
      [⟨newId, u, now, true⟩] ∧
    (updateAdbUrl rows (some u) newId now).1.map (fun r => (r.id, r.server_url)) =
      rows.map (fun r => (r.id, r.server_url)) ++ [(newId, u)] ∧
    (updateAdbUrl rows (some u) newId now).2 = true := by
  have htr : truthyStr (some u) = true := by simp [truthyStr, hu]
  unfold updateAdbUrl
  rw [htr, if_neg (by simp)]
  refine ⟨?_, ?_, rfl⟩
  · simp [List.filter_append, filter_deactivated_nil]
  · rw [List.map_append, map_idUrl_deactivated]
    rfl

/-- Witness for `updateAdbUrl_exactlyOneActive` on a two-row table. -/
theorem updateAdbUrl_exactlyOneActive_witness :
    ((updateAdbUrl [⟨"r1", "u1", 1, true⟩, ⟨"r2", "u2", 2, false⟩]
        (some "https://new.ngrok.app") "r3" 9).1.filter fun r => r.is_active) =
      [⟨"r3", "https://new.ngrok.app", 9, true⟩] ∧
    (updateAdbUrl [⟨"r1", "u1", 1, true⟩, ⟨"r2", "u2", 2, false⟩]
        (some "https://new.ngrok.app") "r3" 9).1.map (fun r => (r.id, r.server_url)) =
      ([⟨"r1", "u1", 1, true⟩, ⟨"r2", "u2", 2, false⟩] : List ConfigRow).map
          (fun r => (r.id, r.server_url)) ++
        [("r3", "https://new.ngrok.app")] ∧
    (updateAdbUrl [⟨"r1", "u1", 1, true⟩, ⟨"r2", "u2", 2, false⟩]
        (some "https://new.ngrok.app") "r3" 9).2 = true :=
  updateAdbUrl_exactlyOneActive [⟨"r1", "u1", 1, true⟩, ⟨"r2", "u2", 2, false⟩]
    "https://new.ngrok.app" "r3" 9 (by decide)

/-! ## Claim C10 -/

/-- Claim C10: the heuristic always proposes a tap whose coordinates are
drawn from fixed in-bounds sets — one of the 16 tile-grid positions for
tile/match/puzzle names, x in 300..419 and y in 640..839 for
pool/billiard names, and the fixed center (360, 640) otherwise — and the
decision step of a cycle (vision-backed or heuristic) always carries a
non-null action, so the loop's no-action branch is unreachable once a
screenshot has been captured. -/
theorem heuristicTap_inBounds (g : String) (r : HeuristicRand) :
    ∃ c : Coordinates,
      (analyzeScreenHeuristic g r).action =
        some ⟨.tap, some c, none, none, none, none⟩ ∧
      (isTileGameName g = true → c ∈ tilePositions) ∧
      (isTileGameName g = false → isPoolGameName g = true →
        300 ≤ c.x ∧ c.x ≤ 419 ∧ 640 ≤ c.y ∧ c.y ≤ 839) ∧
      (isTileGameName g = false → isPoolGameName g = false → c = ⟨360, 640⟩) ∧
      (∀ (s : SessionRow) (k : Option String) (e : CycleEnv),
        (decideCycleAction s k e).action.isSome = true) := by
  have hdec : ∀ (s : SessionRow) (k : Option String) (e : CycleEnv),
      (decideCycleAction s k e).action.isSome = true := by
    intro s k e
    unfold decideCycleAction
    split_ifs
    · exact analyzeScreenWithGemini_action_isSome k e.visionOutcome s.game_name e.rand
    · exact analyzeScreenHeuristic_action_isSome s.game_name e.rand
  unfold analyzeScreenHeuristic
  by_cases h1 : isTileGameName g
  · refine ⟨tilePositions.get ⟨r.tileIdx.val, r.tileIdx.isLt⟩, ?_, ?_, ?_, ?_, hdec⟩
    · simp [h1]
    · intro _
      exact List.get_mem tilePositions _ _
    · intro hfalse
      rw [h1] at hfalse
      cases hfalse
    · intro hfalse
      rw [h1] at hfalse
      cases hfalse
  · by_cases h2 : isPoolGameName g
    · refine ⟨⟨300 + r.poolX.val, 640 + r.poolY.val⟩, ?_, ?_, ?_, ?_, hdec⟩
      · simp [h1, h2]
      · intro htile
        rw [htile] at h1
        simp at h1
      · intro _ _
        have hx := r.poolX.isLt
        have hy := r.poolY.isLt
        dsimp only
        refine ⟨by omega, by omega, by omega, by omega⟩
      · intro _ hpf
        rw [hpf] at h2
        simp at h2
    · refine ⟨⟨360, 640⟩, ?_, ?_, ?_, ?_, hdec⟩
      · simp [h1, h2]
      · intro htile
        rw [htile] at h1
        simp at h1
      · intro _ hpt
        rw [hpt] at h2
        simp at h2
      · intro _ _
        rfl

/-- Witness for `heuristicTap_inBounds` on a pool game at the extreme
random draws. -/
theorem heuristicTap_inBounds_witness :
    ∃ c : Coordinates,
      (analyzeScreenHeuristic "8 Ball Pool" ⟨0, 119, 199⟩).action =
        some ⟨.tap, some c, none, none, none, none⟩ ∧
      (isTileGameName "8 Ball Pool" = true → c ∈ tilePositions) ∧
      (isTileGameName "8 Ball Pool" = false → isPoolGameName "8 Ball Pool" = true →
        300 ≤ c.x ∧ c.x ≤ 419 ∧ 640 ≤ c.y ∧ c.y ≤ 839) ∧
      (isTileGameName "8 Ball Pool" = false → isPoolGameName "8 Ball Pool" = false →
        c = ⟨360, 640⟩) ∧
      (∀ (s : SessionRow) (k : Option String) (e : CycleEnv),
        (decideCycleAction s k e).action.isSome = true) :=
  heuristicTap_inBounds "8 Ball Pool" ⟨0, 119, 199⟩
